import Mathlib

/-!
# Schedule manager: recurring schedules turned into pending tasks

A shallow embedding of `packages/api/pocketbase/pb_hooks/schedule_manager.pb.go`
(`ProcessSchedules`, `processSchedule`, `shouldGenerateTask`, `generateTask`,
`updateLastGenerated`) together with the library calls it makes, and the
properties of the scheduling decision and of the generation protocol.

Modelling conventions

* A `time.Time` is an instant in whole seconds since the Unix epoch together with
  its location, and a location is a fixed offset east of UTC in seconds.  The
  sub-second part of an instant is never looked at by the calendar accessors the
  program uses.
* `time.Now()` is a parameter: one sweep is evaluated at one clock reading.
* The two collections are lists of rows in storage order.  Every call into the
  data layer (`FindCollectionByNameOrId`, `FindRecordsByFilter`, `form.Submit`)
  consumes one entry of a fault script carried by the store: `none` lets the call
  succeed, `some msg` makes it fail with `msg` and without any write.  An
  exhausted script means success.
* A call either returns or panics.  The program has no `recover`, so a panic leaves
  every function on the call stack; the store is then the one reached at the panic.
* `log.Printf` appends a line to the log carried by the store.
-/

namespace ScheduleManager

/-! ## Calendar arithmetic of package `time` -/

/-- Day number (days since 1970-01-01) of a date of the proleptic Gregorian
calendar, the calendar of package `time`. -/
def daysFromCivil (y m d : Int) : Int :=
  let y1 := if m ≤ 2 then y - 1 else y
  let era := y1 / 400
  let yoe := y1 - era * 400
  let mp := if m > 2 then m - 3 else m + 9
  let doy := (153 * mp + 2) / 5 + d - 1
  let doe := yoe * 365 + yoe / 4 - yoe / 100 + doy
  era * 146097 + doe - 719468

/-- Year, month (1..12) and day of month (1..31) of a day number. -/
def civilFromDays (z0 : Int) : Int × Int × Int :=
  let z := z0 + 719468
  let era := z / 146097
  let doe := z - era * 146097
  let yoe := (doe - doe / 1460 + doe / 36524 - doe / 146096) / 365
  let y := yoe + era * 400
  let doy := doe - (365 * yoe + yoe / 4 - yoe / 100)
  let mp := (5 * doy + 2) / 153
  let d := doy - (153 * mp + 2) / 5 + 1
  let m := if mp < 10 then mp + 3 else mp - 9
  (if m ≤ 2 then y + 1 else y, m, d)

/-- A `time.Time`: the instant in seconds since 1970-01-01T00:00:00Z and the
location, a fixed offset in seconds east of UTC. -/
structure Time where
  unix : Int
  offset : Int
deriving DecidableEq

/-- The zero `time.Time`, January 1, year 1, 00:00:00 UTC. -/
def zeroTime : Time := { unix := -62135596800, offset := 0 }

/-- Go `t.Location()`. -/
def Time.Location (t : Time) : Int := t.offset

/-- Go `t.In(loc)`: the same instant, shown in another location. -/
def Time.In (t : Time) (loc : Int) : Time := { unix := t.unix, offset := loc }

/-- Day number of the calendar day on which `t` falls in its own location. -/
def Time.localDay (t : Time) : Int := (t.unix + t.offset) / 86400

/-- Go `t.Year()`. -/
def Time.Year (t : Time) : Int := (civilFromDays t.localDay).1

/-- Go `t.Month()`, January = 1. -/
def Time.Month (t : Time) : Int := (civilFromDays t.localDay).2.1

/-- Go `t.Day()`. -/
def Time.Day (t : Time) : Int := (civilFromDays t.localDay).2.2

/-- Go `int(t.Weekday())`, 0 = Sunday .. 6 = Saturday; 1970-01-01 was a Thursday. -/
def Time.Weekday (t : Time) : Int := (t.localDay + 4) % 7

/-- Go `time.Date(year, month, day, hour, min, sec, nsec, loc)` for in-range
arguments; the result is kept in whole seconds. -/
def Date (year month day hour min sec _nsec : Int) (loc : Int) : Time :=
  { unix := daysFromCivil year month day * 86400 + hour * 3600 + min * 60 + sec - loc,
    offset := loc }

/-- Go `t.After(u)`: the instant `t` is later than the instant `u`. -/
def Time.After (t u : Time) : Bool := decide (u.unix < t.unix)

/-- Go `t.IsZero()`: the instant is January 1, year 1, 00:00:00 UTC. -/
def Time.IsZero (t : Time) : Bool := decide (t.unix = zeroTime.unix)

/-! ## The schedule as parsed by `processSchedule` -/

/-- Go `type Schedule struct`; `Priority *int` is an optional integer. -/
structure Schedule where
  ID : String
  Title : String
  Child : String
  Priority : Option Int
  Recurrence : String
  DaysOfWeek : List Int
  TimePeriod : String
  Active : Bool
  LastGenerated : Time
deriving DecidableEq

/-- The loop `for _, day := range schedule.DaysOfWeek` of `shouldGenerateTask`:
the value of `isScheduledDay` when the loop is left. -/
def rangeDaysOfWeek (currentWeekday : Int) : List Int → Bool
  | [] => false
  | day :: rest =>
    if day = currentWeekday then true else rangeDaysOfWeek currentWeekday rest

/-- Go `shouldGenerateTask`, with the reading of `time.Now()` as `now`.  The second
component is the returned error, `nil` on every path. -/
def shouldGenerateTask (now : Time) (schedule : Schedule) : Bool × Option String :=
  let today := Date now.Year now.Month now.Day 0 0 0 0 now.Location
  if schedule.Recurrence = "daily" then
    let lastGenDate := Date schedule.LastGenerated.Year schedule.LastGenerated.Month
      schedule.LastGenerated.Day 0 0 0 0 schedule.LastGenerated.Location
    (today.After lastGenDate, none)
  else if schedule.Recurrence = "weekly" then
    let currentWeekday := now.Weekday
    let isScheduledDay :=
      if schedule.DaysOfWeek.length = 0 then true
      else rangeDaysOfWeek currentWeekday schedule.DaysOfWeek
    if !isScheduledDay then (false, none)
    else
      let lastGenDate := Date schedule.LastGenerated.Year schedule.LastGenerated.Month
        schedule.LastGenerated.Day 0 0 0 0 schedule.LastGenerated.Location
      (today.After lastGenDate, none)
  else (false, none)

/-! ## The data layer -/

/-- A row of the `schedules` collection, with the value each getter of
`processSchedule` reads: `priority` is the stored number (a number field holds 0 when
it was never set), `daysOfWeek` the stored text, `lastGenerated` the stored instant in
seconds since the Unix epoch (the instant of `zeroTime` when never set). -/
structure Record where
  Id : String
  title : String
  child : String
  priority : Int
  recurrence : String
  daysOfWeek : String
  timePeriod : String
  active : Bool
  lastGenerated : Int
deriving DecidableEq

/-- A stored row of the `kiosk_tasks` collection.  Rows are read by the duplicate check
only; the program as written never inserts one (see `generateTask`). -/
structure Task where
  title : String
  child : String
  priority : Int
  completed : Bool
  schedule : String
  generatedAt : Time
deriving DecidableEq

/-- How a call ends: it returns its error value (`none` for `nil`), or it panics with
a value. -/
inductive Outcome where
  | returned (err : Option String)
  | panicked (value : String)
deriving DecidableEq

/-- The application state behind `sm.app`: both collections in storage order, the
script of faults for the coming data-layer calls, and the log written so far. -/
structure Store where
  schedules : List Record
  kiosk_tasks : List Task
  faults : List (Option String)
  log : List String
deriving DecidableEq

/-- What one sweep reads from outside the store: the clock, the location in which
`record.GetDateTime(..).Time()` hands back a stored instant, and the outcome of
`json.Unmarshal` into a `[]int` (the slice it leaves and its error). -/
structure Env where
  now : Time
  readZone : Int
  unmarshal : String → List Int × Option String

/-- A collection handle as returned by `FindCollectionByNameOrId`. -/
structure Collection (α : Type) where
  name : String
  rows : Store → List α

/-- The collection `"schedules"`. -/
def schedulesCollection : Collection Record := { name := "schedules", rows := Store.schedules }

/-- The collection `"kiosk_tasks"`. -/
def tasksCollection : Collection Task := { name := "kiosk_tasks", rows := Store.kiosk_tasks }

/-- Go `log.Printf`. -/
def Store.logPrintf (s : Store) (line : String) : Store := { s with log := s.log ++ [line] }

/-- The outcome the fault script dictates for the next data-layer call. -/
def Store.nextFault (s : Store) : Option String × Store :=
  match s.faults with
  | [] => (none, s)
  | f :: rest => (f, { s with faults := rest })

/-- Go `Dao().FindCollectionByNameOrId(name)`; both collections exist, so the call
fails only when the fault script says so. -/
def FindCollectionByNameOrId {α : Type} (c : Collection α) (s : Store) :
    Except String (Collection α) × Store :=
  match s.nextFault with
  | (some err, s1) => (Except.error err, s1)
  | (none, s1) => (Except.ok c, s1)

/-- Go `Dao().FindRecordsByFilter(collection, filter, sort, limit, offset, params...)`.
The filter text is given as the predicate it denotes.  As the library documents,
no limit is applied when `limit` is not positive, and `offset` rows of the matching
rows are skipped first; the empty `sort` keeps storage order. -/
def FindRecordsByFilter {α : Type} (c : Collection α) (filter : α → Bool) (_sort : String)
    (limit offset : Nat) (s : Store) : Except String (List α) × Store :=
  match s.nextFault with
  | (some err, s1) => (Except.error err, s1)
  | (none, s1) =>
    let matching := (c.rows s1).filter filter
    let skipped := if offset > 0 then matching.drop offset else matching
    (Except.ok (if limit > 0 then skipped.take limit else skipped), s1)

/-- The value of the panic of `forms.NewRecordUpsert(sm.app, &models.Record{})`: the
bare record has no collection, and the constructor dereferences the collection of its
record when it loads the form defaults. -/
def nilCollectionPanic : String :=
  "runtime error: invalid memory address or nil pointer dereference"

/-- Go `forms.NewRecordUpsert(sm.app, record)` followed by `form.Submit()` for a record
that was read from the `schedules` collection: the stored row with that id is replaced
by the submitted one, or the call fails and nothing is written. -/
def submitRecord (record : Record) (s : Store) : Option String × Store :=
  match s.nextFault with
  | (some err, s1) => (some err, s1)
  | (none, s1) =>
    (none, { s1 with schedules := s1.schedules.map fun r => if r.Id = record.Id then record else r })

/-- Go `record.GetInt("priority")`: the stored number. -/
def Record.GetInt_priority (record : Record) : Int := record.priority

/-- Go `record.GetDateTime("lastGenerated").Time()`. -/
def Record.GetDateTime_lastGenerated (env : Env) (record : Record) : Time :=
  { unix := record.lastGenerated, offset := env.readZone }

/-! ## The schedule manager -/

/-- The filter `"active = true"`. -/
def activeFilter (record : Record) : Bool := record.active == true

/-- The filter `schedule = '<id>' && child = '<child>' && completed = false` that
`generateTask` formats (ids and child names without quote characters). -/
def incompleteFilter (scheduleID child : String) (task : Task) : Bool :=
  task.schedule == scheduleID && task.child == child && task.completed == false

/-- The first part of Go `processSchedule` ("Parse schedule data" up to "Parse last
generated time"): the `Schedule` value built from the record. -/
def parseSchedule (env : Env) (record : Record) : Schedule :=
  let schedule : Schedule :=
    { ID := record.Id, Title := record.title, Child := record.child, Priority := none,
      Recurrence := record.recurrence, DaysOfWeek := [], TimePeriod := record.timePeriod,
      Active := record.active, LastGenerated := zeroTime }
  let priority := record.GetInt_priority
  let schedule := if priority ≠ 0 then { schedule with Priority := some priority } else schedule
  let daysJSON := record.daysOfWeek
  let schedule :=
    if daysJSON ≠ "" then { schedule with DaysOfWeek := (env.unmarshal daysJSON).1 } else schedule
  let lastGen := record.GetDateTime_lastGenerated env
  if !lastGen.IsZero then { schedule with LastGenerated := lastGen } else schedule

/-- The log line of the parsing part of `processSchedule`, written when
`json.Unmarshal` reports an error. -/
def parseScheduleLog (env : Env) (record : Record) (s : Store) : Store :=
  if record.daysOfWeek ≠ "" then
    match (env.unmarshal record.daysOfWeek).2 with
    | some err =>
      s.logPrintf ("Failed to parse daysOfWeek for schedule " ++ record.Id ++ ": " ++ err)
    | none => s
  else s

/-- Go `generateTask`.  The duplicate check is the call
`FindRecordsByFilter(tasksCollection, <filter>, "", 0, 1, nil)`: sort `""`, limit `0`,
offset `1`.  When the check returns no row, the creation step starts with
`forms.NewRecordUpsert(sm.app, &models.Record{})`, which panics; `form.LoadRequest` and
`form.Submit` after it are not reached, so no row is inserted and no creation error is
returned. -/
def generateTask (schedule : Schedule) (s : Store) : Outcome × Store :=
  match FindCollectionByNameOrId tasksCollection s with
  | (Except.error err, s1) =>
    (Outcome.returned (some ("failed to find tasks collection: " ++ err)), s1)
  | (Except.ok tasksCollection, s1) =>
    match FindRecordsByFilter tasksCollection (incompleteFilter schedule.ID schedule.Child)
        "" 0 1 s1 with
    | (Except.error err, s2) =>
      (Outcome.returned (some ("failed to check existing tasks: " ++ err)), s2)
    | (Except.ok existingTasks, s2) =>
      if existingTasks.length > 0 then
        (Outcome.returned none,
          s2.logPrintf ("Skipping task generation for schedule " ++ schedule.ID ++
            " - incomplete task already exists"))
      else
        (Outcome.panicked nilCollectionPanic, s2)

/-- Go `updateLastGenerated`: the record is submitted with `lastGenerated` set to the
clock reading, formatted to whole seconds. -/
def updateLastGenerated (env : Env) (record : Record) (s : Store) : Option String × Store :=
  match submitRecord { record with lastGenerated := env.now.unix } s with
  | (some err, s1) => (some ("failed to update lastGenerated: " ++ err), s1)
  | (none, s1) => (none, s1)

/-- Go `processSchedule`.  A panic of `generateTask` is not recovered and leaves
`processSchedule` as well. -/
def processSchedule (env : Env) (record : Record) (s : Store) : Outcome × Store :=
  let schedule := parseSchedule env record
  let s0 := parseScheduleLog env record s
  match shouldGenerateTask env.now schedule with
  | (_, some err) =>
    (Outcome.returned (some ("failed to check if task should be generated: " ++ err)), s0)
  | (shouldGenerate, none) =>
    if !shouldGenerate then (Outcome.returned none, s0)
    else
      match generateTask schedule s0 with
      | (Outcome.panicked value, s1) => (Outcome.panicked value, s1)
      | (Outcome.returned (some err), s1) =>
        (Outcome.returned (some ("failed to generate task: " ++ err)), s1)
      | (Outcome.returned none, s1) =>
        match updateLastGenerated env record s1 with
        | (some err, s2) =>
          (Outcome.returned (some ("failed to update lastGenerated: " ++ err)), s2)
        | (none, s2) =>
          (Outcome.returned none,
            s2.logPrintf ("Generated task for schedule " ++ schedule.ID ++
              " (" ++ schedule.Title ++ ")"))

/-- The loop `for _, record := range records` of Go `ProcessSchedules`.  A returned
error is logged and dropped; a panic leaves the loop, and the first component is then
its value. -/
def rangeRecords (env : Env) : List Record → Store → Option String × Store
  | [], s => (none, s)
  | record :: rest, s =>
    match processSchedule env record s with
    | (Outcome.panicked value, s1) => (some value, s1)
    | (Outcome.returned (some err), s1) =>
      rangeRecords env rest
        (s1.logPrintf ("Error processing schedule " ++ record.Id ++ ": " ++ err))
    | (Outcome.returned none, s1) => rangeRecords env rest s1

/-- Go `ProcessSchedules`.  The listing is the call
`FindRecordsByFilter(schedules, "active = true", "", 0, 0, nil)`: sort `""`, limit `0`,
offset `0`.  There is no `recover`: a panic inside the loop leaves `ProcessSchedules`. -/
def ProcessSchedules (env : Env) (s : Store) : Outcome × Store :=
  match FindCollectionByNameOrId schedulesCollection s with
  | (Except.error err, s1) =>
    (Outcome.returned (some ("failed to find schedules collection: " ++ err)), s1)
  | (Except.ok schedules, s1) =>
    match FindRecordsByFilter schedules activeFilter "" 0 0 s1 with
    | (Except.error err, s2) =>
      (Outcome.returned (some ("failed to find active schedules: " ++ err)), s2)
    | (Except.ok records, s2) =>
      let s3 := s2.logPrintf ("Processing " ++ toString records.length ++ " active schedules")
      match rangeRecords env records s3 with
      | (some value, s4) => (Outcome.panicked value, s4)
      | (none, s4) => (Outcome.returned none, s4)

/-! ## Concrete scenarios -/

/-- The instant 2024-01-02T08:00:00Z, a Tuesday. -/
def tuesdayMorningUTC : Time := { unix := 1704182400, offset := 0 }

/-- The instant 2024-01-02T01:00:00+02:00 (2024-01-01T23:00:00Z). -/
def tuesdayNightEast : Time := { unix := 1704150000, offset := 7200 }

/-- The instant 2024-01-01T22:30:00Z, which is 2024-01-02T00:30:00+02:00. -/
def halfPastMidnightEastInUTC : Time := { unix := 1704148200, offset := 0 }

/-- A server whose clock reads 2024-01-02T08:00:00Z and whose zone is UTC; stored
instants are handed back in UTC. -/
def envUTC : Env :=
  { now := tuesdayMorningUTC, readZone := 0, unmarshal := fun _ => ([], none) }

/-- A daily schedule last generated 2024-01-01T08:00:00Z. -/
def teethRecord : Record :=
  { Id := "s1", title := "Brush teeth", child := "c1", priority := 2,
    recurrence := "daily", daysOfWeek := "", timePeriod := "morning", active := true,
    lastGenerated := 1704096000 }

/-- A daily schedule never generated. -/
def bedRecord : Record :=
  { Id := "s2", title := "Make bed", child := "c1", priority := 0,
    recurrence := "daily", daysOfWeek := "", timePeriod := "morning", active := true,
    lastGenerated := -62135596800 }

/-- An incomplete task of `teethRecord` from 2024-01-01T08:00:00Z. -/
def teethTaskYesterday : Task :=
  { title := "Brush teeth", child := "c1", priority := 2, completed := false,
    schedule := "s1", generatedAt := { unix := 1704096000, offset := 0 } }

/-- An incomplete task of `teethRecord` from 2023-12-31T08:00:00Z. -/
def teethTaskDayBefore : Task :=
  { title := "Brush teeth", child := "c1", priority := 2, completed := false,
    schedule := "s1", generatedAt := { unix := 1704009600, offset := 0 } }

/-- A store with `teethRecord` and one incomplete task for it. -/
def storeOnePending : Store :=
  { schedules := [teethRecord], kiosk_tasks := [teethTaskYesterday], faults := [], log := [] }

/-- A store with `teethRecord` and two incomplete tasks for it. -/
def storeTwoPending : Store :=
  { schedules := [teethRecord], kiosk_tasks := [teethTaskDayBefore, teethTaskYesterday],
    faults := [], log := [] }

/-- A store with `teethRecord` and no task. -/
def storeNoTask : Store :=
  { schedules := [teethRecord], kiosk_tasks := [], faults := [], log := [] }

/-- A store with the never generated `bedRecord` and no task. -/
def storeFresh : Store :=
  { schedules := [bedRecord], kiosk_tasks := [], faults := [], log := [] }

/-- A store with two active schedules: `bedRecord` without a task, listed first, and
`teethRecord` with two incomplete tasks. -/
def storeTwoSchedules : Store :=
  { schedules := [bedRecord, teethRecord],
    kiosk_tasks := [teethTaskDayBefore, teethTaskYesterday], faults := [], log := [] }

/-- The store `storeNoTask` when the duplicate-check query is going to fail. -/
def storeQueryFails : Store :=
  { schedules := [teethRecord], kiosk_tasks := [],
    faults := [none, some "database is locked"], log := [] }

/-- A weekly schedule for Monday, Wednesday and Friday. -/
def weeklySchedule : Schedule :=
  { ID := "s3", Title := "Tidy room", Child := "c1", Priority := none, Recurrence := "weekly",
    DaysOfWeek := [1, 3, 5], TimePeriod := "evening", Active := true, LastGenerated := zeroTime }

/-- A daily schedule with the given `LastGenerated`. -/
def dailySchedule (lastGenerated : Time) : Schedule :=
  { ID := "s1", Title := "Brush teeth", Child := "c1", Priority := none, Recurrence := "daily",
    DaysOfWeek := [], TimePeriod := "morning", Active := true, LastGenerated := lastGenerated }

/-- Invariant 1 of the data model: every (schedule, child) pair has at most one task
with `completed = false`. -/
def AtMostOneIncomplete (tasks : List Task) : Prop :=
  ∀ scheduleID child : String, (tasks.filter (incompleteFilter scheduleID child)).length ≤ 1

/-! ## Calendar lemmas -/

set_option maxHeartbeats 4000000 in
theorem dayOfYear_bounds (doe : Int) (h0 : 0 ≤ doe) (h1 : doe ≤ 146096) :
    0 ≤ doe - (365 * ((doe - doe / 1460 + doe / 36524 - doe / 146096) / 365)
      + ((doe - doe / 1460 + doe / 36524 - doe / 146096) / 365) / 4
      - ((doe - doe / 1460 + doe / 36524 - doe / 146096) / 365) / 100) ∧
    doe - (365 * ((doe - doe / 1460 + doe / 36524 - doe / 146096) / 365)
      + ((doe - doe / 1460 + doe / 36524 - doe / 146096) / 365) / 4
      - ((doe - doe / 1460 + doe / 36524 - doe / 146096) / 365) / 100) ≤ 365 := by
  obtain ⟨e, he⟩ : ∃ e, doe / 1460 = e := ⟨_, rfl⟩
  obtain ⟨b, hb⟩ : ∃ b, doe / 36524 = b := ⟨_, rfl⟩
  obtain ⟨f, hf⟩ : ∃ f, doe / 146096 = f := ⟨_, rfl⟩
  rw [he, hb, hf]
  have hb0 : 0 ≤ b := by omega
  have hb1 : b ≤ 4 := by omega
  interval_cases b
  · have he0 : 0 ≤ e := by omega
    have he1 : e ≤ 25 := by omega
    interval_cases e <;> omega
  · have he0 : 25 ≤ e := by omega
    have he1 : e ≤ 50 := by omega
    interval_cases e <;> omega
  · have he0 : 50 ≤ e := by omega
    have he1 : e ≤ 75 := by omega
    interval_cases e <;> omega
  · have he0 : 75 ≤ e := by omega
    have he1 : e ≤ 100 := by omega
    interval_cases e <;> omega
  · have he0 : 100 ≤ e := by omega
    have he1 : e ≤ 100 := by omega
    interval_cases e
    omega

theorem yearOfEra_bounds (doe : Int) (h0 : 0 ≤ doe) (h1 : doe ≤ 146096) :
    0 ≤ (doe - doe / 1460 + doe / 36524 - doe / 146096) / 365 ∧
    (doe - doe / 1460 + doe / 36524 - doe / 146096) / 365 ≤ 399 := by
  omega

/-- The date of a day number names that day number again. -/
theorem daysFromCivil_civilFromDays (z : Int) :
    daysFromCivil (civilFromDays z).1 (civilFromDays z).2.1 (civilFromDays z).2.2 = z := by
  obtain ⟨era, hera⟩ : ∃ era, (z + 719468) / 146097 = era := ⟨_, rfl⟩
  obtain ⟨doe, hdoe⟩ : ∃ doe, z + 719468 - era * 146097 = doe := ⟨_, rfl⟩
  have hd0 : 0 ≤ doe := by omega
  have hd1 : doe ≤ 146096 := by omega
  have hy := yearOfEra_bounds doe hd0 hd1
  have hdoy := dayOfYear_bounds doe hd0 hd1
  simp only [daysFromCivil, civilFromDays, hera, hdoe]
  generalize (doe - doe / 1460 + doe / 36524 - doe / 146096) / 365 = yoe at hy hdoy ⊢
  obtain ⟨doy, hdoyeq⟩ : ∃ doy, doe - (365 * yoe + yoe / 4 - yoe / 100) = doy := ⟨_, rfl⟩
  rw [hdoyeq] at hdoy ⊢
  obtain ⟨mp, hmp⟩ : ∃ mp, (5 * doy + 2) / 153 = mp := ⟨_, rfl⟩
  rw [hmp]
  have hmp0 : 0 ≤ mp := by omega
  have hmp1 : mp ≤ 11 := by omega
  have hk : (yoe + era * 400) / 400 = era := by omega
  have hk1 : (yoe + era * 400 + 1 - 1) / 400 = era := by
    rw [show yoe + era * 400 + 1 - 1 = yoe + era * 400 by ring]; exact hk
  by_cases h10 : mp < 10
  · have h2 : ¬ (mp + 3 ≤ 2) := by omega
    have h3 : mp + 3 > 2 := by omega
    simp only [h10, h2, h3, if_true, if_false, hk]
    rw [show yoe + era * 400 - era * 400 = yoe by ring, show mp + 3 - 3 = mp by ring]
    omega
  · have h2 : mp - 9 ≤ 2 := by omega
    have h3 : ¬ (mp - 9 > 2) := by omega
    simp only [h10, h2, h3, if_true, if_false, hk1]
    rw [show yoe + era * 400 + 1 - 1 - era * 400 = yoe by ring, show mp - 9 + 9 = mp by ring]
    omega

/-- Two times fall on the same calendar date, each in its own location, exactly when
their local day numbers agree. -/
theorem localDay_eq_iff_same_date (t u : Time) :
    t.localDay = u.localDay ↔ (t.Year = u.Year ∧ t.Month = u.Month ∧ t.Day = u.Day) := by
  constructor
  · intro h
    simp [Time.Year, Time.Month, Time.Day, h]
  · rintro ⟨hy, hm, hd⟩
    have ht := daysFromCivil_civilFromDays t.localDay
    have hu := daysFromCivil_civilFromDays u.localDay
    simp only [Time.Year, Time.Month, Time.Day] at hy hm hd
    rw [hy, hm, hd] at ht
    rw [← ht, hu]

/-- The midnight that `time.Date(t.Year(), t.Month(), t.Day(), 0, 0, 0, 0, t.Location())`
denotes is the first instant of the calendar day of `t` in its location. -/
theorem Date_startOfDay (t : Time) :
    Date t.Year t.Month t.Day 0 0 0 0 t.Location =
      { unix := t.localDay * 86400 - t.offset, offset := t.offset } := by
  simp [Date, Time.Year, Time.Month, Time.Day, Time.Location, daysFromCivil_civilFromDays]

/-! ## Lemmas on the decision -/

theorem rangeDaysOfWeek_eq_decide (w : Int) (days : List Int) :
    rangeDaysOfWeek w days = decide (w ∈ days) := by
  induction days with
  | nil => simp [rangeDaysOfWeek]
  | cons d rest ih =>
    by_cases h : d = w
    · simp [rangeDaysOfWeek, h]
    · have h2 : ¬ w = d := fun e => h e.symm
      simp [rangeDaysOfWeek, h, h2, ih]

/-- The daily test in closed form: local midnight of `now` is later than local
midnight of `lastGenerated`, each in its own location. -/
theorem shouldGenerateTask_daily (now : Time) (schedule : Schedule)
    (hd : schedule.Recurrence = "daily") :
    shouldGenerateTask now schedule =
      (decide (schedule.LastGenerated.localDay * 86400 - schedule.LastGenerated.offset
        < now.localDay * 86400 - now.offset), none) := by
  simp [shouldGenerateTask, hd, Date_startOfDay, Time.After]

theorem shouldGenerateTask_weekly (now : Time) (schedule : Schedule)
    (hw : schedule.Recurrence = "weekly") :
    shouldGenerateTask now schedule =
      (decide (schedule.DaysOfWeek = [] ∨ now.Weekday ∈ schedule.DaysOfWeek) &&
        decide (schedule.LastGenerated.localDay * 86400 - schedule.LastGenerated.offset
          < now.localDay * 86400 - now.offset), none) := by
  have hne : ¬ ("weekly" = "daily") := by decide
  unfold shouldGenerateTask
  simp only [hw, hne, if_false, if_true, Date_startOfDay, Time.After,
    rangeDaysOfWeek_eq_decide]
  cases hdays : schedule.DaysOfWeek with
  | nil => simp
  | cons d rest =>
    by_cases hmem : now.Weekday ∈ d :: rest
    · simp [hmem]
    · simp [hmem]

/-- C5: a daily schedule whose `lastGenerated` falls, seen in the location of `now`,
on a calendar day strictly before the calendar day of `now` is due.  The location that
`lastGenerated` itself carries is arbitrary; no bound on its offset is needed. -/
theorem shouldGenerateTask_daily_due_after_earlier_day (now : Time) (schedule : Schedule)
    (hd : schedule.Recurrence = "daily")
    (hday : (schedule.LastGenerated.In now.Location).localDay < now.localDay) :
    shouldGenerateTask now schedule = (true, none) := by
  rw [shouldGenerateTask_daily now schedule hd]
  simp only [Time.localDay, Time.In, Time.Location] at hday ⊢
  have : schedule.LastGenerated.unix + schedule.LastGenerated.offset
      - (schedule.LastGenerated.unix + schedule.LastGenerated.offset) % 86400
      = (schedule.LastGenerated.unix + schedule.LastGenerated.offset) / 86400 * 86400 := by omega
  simp only [Prod.mk.injEq, decide_eq_true_eq, and_true]
  omega

/-- With `lastGenerated` carried in the location of `now`, a daily schedule generated
earlier on the calendar day of `now` is not due. -/
theorem shouldGenerateTask_daily_same_day_same_location (now : Time) (schedule : Schedule)
    (hd : schedule.Recurrence = "daily")
    (hloc : schedule.LastGenerated.Location = now.Location)
    (hday : schedule.LastGenerated.localDay = now.localDay) :
    shouldGenerateTask now schedule = (false, none) := by
  rw [shouldGenerateTask_daily now schedule hd]
  simp only [Time.Location] at hloc
  simp [hday, hloc]

/-! ## Lemmas on the parsed schedule -/

theorem parseSchedule_ID (env : Env) (record : Record) :
    (parseSchedule env record).ID = record.Id := by
  unfold parseSchedule; dsimp only; split_ifs <;> rfl

theorem parseSchedule_Title (env : Env) (record : Record) :
    (parseSchedule env record).Title = record.title := by
  unfold parseSchedule; dsimp only; split_ifs <;> rfl

theorem parseSchedule_Child (env : Env) (record : Record) :
    (parseSchedule env record).Child = record.child := by
  unfold parseSchedule; dsimp only; split_ifs <;> rfl

theorem parseSchedule_Recurrence (env : Env) (record : Record) :
    (parseSchedule env record).Recurrence = record.recurrence := by
  unfold parseSchedule; dsimp only; split_ifs <;> rfl

theorem parseSchedule_Priority (env : Env) (record : Record) :
    (parseSchedule env record).Priority =
      if record.priority = 0 then none else some record.priority := by
  unfold parseSchedule Record.GetInt_priority
  dsimp only; split_ifs <;> simp_all

theorem parseSchedule_LastGenerated (env : Env) (record : Record) :
    (parseSchedule env record).LastGenerated =
      if record.lastGenerated = zeroTime.unix then zeroTime
      else { unix := record.lastGenerated, offset := env.readZone } := by
  unfold parseSchedule Record.GetDateTime_lastGenerated Time.IsZero
  dsimp only; split_ifs <;> simp_all

/-- C6: a daily schedule whose `lastGenerated` is unset (the zero time) is due at every
clock reading `now`.  A reading of `time.Now()` lies long after the zero instant
0001-01-01T00:00:00Z; what the proof uses of it is that it lies at least 24 hours after
that instant, in whatever location.  The schedule `processSchedule` builds from a daily
record whose stored `lastGenerated` is the zero instant is such a schedule. -/
theorem shouldGenerateTask_daily_never_generated (now : Time) (schedule : Schedule)
    (hd : schedule.Recurrence = "daily") (hz : schedule.LastGenerated = zeroTime)
    (hnow : zeroTime.unix + 86400 ≤ now.unix) :
    shouldGenerateTask now schedule = (true, none) ∧
    ∀ (env : Env) (record : Record), env.now = now → record.recurrence = "daily" →
      record.lastGenerated = zeroTime.unix →
      shouldGenerateTask env.now (parseSchedule env record) = (true, none) := by
  have key : ∀ sch : Schedule, sch.Recurrence = "daily" → sch.LastGenerated = zeroTime →
      shouldGenerateTask now sch = (true, none) := by
    intro sch h1 h2
    rw [shouldGenerateTask_daily now sch h1, h2]
    simp only [Time.localDay, zeroTime] at hnow ⊢
    simp only [Prod.mk.injEq, decide_eq_true_eq, and_true]
    omega
  refine ⟨key schedule hd hz, ?_⟩
  intro env record hn hr hl
  rw [hn]
  apply key
  · rw [parseSchedule_Recurrence]; exact hr
  · rw [parseSchedule_LastGenerated]; simp [hl]

/-- C7: a weekly schedule is due exactly when `DaysOfWeek` is empty or contains the
weekday of `now` (0 = Sunday .. 6 = Saturday) and the daily schedule with the same
`LastGenerated` is due at `now`.  With `DaysOfWeek = [1, 3, 5]` and `now` on a Tuesday it
is not due, whatever `LastGenerated` is; with `DaysOfWeek = []` the result is that of the
daily schedule with the same `LastGenerated`. -/
theorem shouldGenerateTask_weekly_iff (now : Time) (schedule : Schedule)
    (hw : schedule.Recurrence = "weekly") :
    ((shouldGenerateTask now schedule).1 = true ↔
      (schedule.DaysOfWeek = [] ∨ now.Weekday ∈ schedule.DaysOfWeek) ∧
      (shouldGenerateTask now { schedule with Recurrence := "daily" }).1 = true) ∧
    (schedule.DaysOfWeek = [1, 3, 5] → now.Weekday = 2 →
      shouldGenerateTask now schedule = (false, none)) ∧
    (schedule.DaysOfWeek = [] →
      shouldGenerateTask now schedule =
        shouldGenerateTask now { schedule with Recurrence := "daily" }) := by
  rw [shouldGenerateTask_weekly now schedule hw,
    shouldGenerateTask_daily now { schedule with Recurrence := "daily" } rfl]
  refine ⟨?_, ?_, ?_⟩
  · simp
  · intro hdays htue
    simp [hdays, htue]
  · intro hdays
    simp [hdays]

/-! ## Lemmas on the data layer and the generation protocol -/

theorem shouldGenerateTask_snd (now : Time) (schedule : Schedule) :
    (shouldGenerateTask now schedule).2 = none := by
  unfold shouldGenerateTask
  dsimp only
  split_ifs <;> rfl

theorem shouldGenerateTask_eq_of_fst (now : Time) (schedule : Schedule) (b : Bool)
    (h : (shouldGenerateTask now schedule).1 = b) :
    shouldGenerateTask now schedule = (b, none) :=
  Prod.ext h (shouldGenerateTask_snd now schedule)

theorem parseScheduleLog_schedules (env : Env) (record : Record) (s : Store) :
    (parseScheduleLog env record s).schedules = s.schedules := by
  unfold parseScheduleLog
  split_ifs
  · split <;> rfl
  · rfl

theorem parseScheduleLog_kiosk_tasks (env : Env) (record : Record) (s : Store) :
    (parseScheduleLog env record s).kiosk_tasks = s.kiosk_tasks := by
  unfold parseScheduleLog
  split_ifs
  · split <;> rfl
  · rfl

theorem parseScheduleLog_faults (env : Env) (record : Record) (s : Store) :
    (parseScheduleLog env record s).faults = s.faults := by
  unfold parseScheduleLog
  split_ifs
  · split <;> rfl
  · rfl

theorem updateLastGenerated_kiosk_tasks (env : Env) (record : Record) (s : Store) :
    (updateLastGenerated env record s).2.kiosk_tasks = s.kiosk_tasks := by
  obtain ⟨sch, tasks, faults, lg⟩ := s
  simp only [updateLastGenerated, submitRecord, Store.nextFault]
  rcases faults with _ | ⟨_ | e1, rest⟩ <;> rfl

theorem generateTask_schedules (schedule : Schedule) (s : Store) :
    (generateTask schedule s).2.schedules = s.schedules := by
  obtain ⟨sch, tasks, faults, lg⟩ := s
  simp only [generateTask, FindCollectionByNameOrId, FindRecordsByFilter,
    Store.nextFault, Store.logPrintf, tasksCollection]
  rcases faults with _ | ⟨_ | e1, _ | ⟨_ | e2, rest⟩⟩ <;> simp <;>
    split_ifs <;> simp

/-- The function `generateTask` never changes the task collection: it returns an error,
skips, or panics before any write. -/
theorem generateTask_kiosk_tasks (schedule : Schedule) (s : Store) :
    (generateTask schedule s).2.kiosk_tasks = s.kiosk_tasks := by
  obtain ⟨sch, tasks, faults, lg⟩ := s
  simp only [generateTask, FindCollectionByNameOrId, FindRecordsByFilter,
    Store.nextFault, Store.logPrintf, tasksCollection]
  rcases faults with _ | ⟨_ | e1, _ | ⟨_ | e2, rest⟩⟩ <;> simp <;>
    split_ifs <;> simp

/-- Without faults `generateTask` skips exactly when the rows matching the filter,
less the 1 row of the offset, are not empty; otherwise it reaches the creation step and
panics there. -/
theorem generateTask_no_fault (schedule : Schedule) (s : Store) (hf : s.faults = []) :
    generateTask schedule s =
      if ((s.kiosk_tasks.filter (incompleteFilter schedule.ID schedule.Child)).drop 1).length > 0
      then (Outcome.returned none,
        s.logPrintf ("Skipping task generation for schedule " ++ schedule.ID ++
          " - incomplete task already exists"))
      else (Outcome.panicked nilCollectionPanic, s) := by
  obtain ⟨sch, tasks, faults, lg⟩ := s
  simp only at hf
  subst hf
  simp only [generateTask, FindCollectionByNameOrId, FindRecordsByFilter,
    Store.nextFault, Store.logPrintf, tasksCollection]
  simp

/-- The function `processSchedule` never changes the task collection. -/
theorem processSchedule_kiosk_tasks (env : Env) (record : Record) (s : Store) :
    (processSchedule env record s).2.kiosk_tasks = s.kiosk_tasks := by
  have hg := generateTask_kiosk_tasks (parseSchedule env record) (parseScheduleLog env record s)
  rw [parseScheduleLog_kiosk_tasks] at hg
  unfold processSchedule
  dsimp only
  cases hb : (shouldGenerateTask env.now (parseSchedule env record)).1 with
  | false =>
    rw [shouldGenerateTask_eq_of_fst _ _ _ hb]
    simp [parseScheduleLog_kiosk_tasks]
  | true =>
    rw [shouldGenerateTask_eq_of_fst _ _ _ hb]
    dsimp only
    rcases hgen : generateTask (parseSchedule env record) (parseScheduleLog env record s)
      with ⟨(_ | err) | value, s1⟩
    · rw [hgen] at hg
      dsimp only at hg ⊢
      have hu := updateLastGenerated_kiosk_tasks env record s1
      rcases hupd : updateLastGenerated env record s1 with ⟨_ | err2, s2⟩
      · rw [hupd] at hu
        simp only [Bool.not_true, Bool.false_eq_true, if_false, Store.logPrintf] at hu ⊢
        rw [hu, hg]
      · rw [hupd] at hu
        simp only [Bool.not_true, Bool.false_eq_true, if_false] at hu ⊢
        rw [hu, hg]
    · rw [hgen] at hg
      simpa using hg
    · rw [hgen] at hg
      simpa using hg

/-- The loop of `ProcessSchedules` never changes the task collection, whether it runs
to its end or is left by a panic. -/
theorem rangeRecords_kiosk_tasks (env : Env) (records : List Record) (s : Store) :
    (rangeRecords env records s).2.kiosk_tasks = s.kiosk_tasks := by
  induction records generalizing s with
  | nil => rfl
  | cons record rest ih =>
    have hp := processSchedule_kiosk_tasks env record s
    unfold rangeRecords
    rcases hps : processSchedule env record s with ⟨(_ | err) | value, s1⟩
    · rw [hps] at hp
      simp only at hp ⊢
      rw [ih, hp]
    · rw [hps] at hp
      simp only at hp ⊢
      rw [ih]
      simpa [Store.logPrintf] using hp
    · rw [hps] at hp
      simpa using hp

/-- A sweep never changes the task collection, whether `ProcessSchedules` returns or
panics. -/
theorem ProcessSchedules_kiosk_tasks (env : Env) (s : Store) :
    (ProcessSchedules env s).2.kiosk_tasks = s.kiosk_tasks := by
  obtain ⟨sch, tasks, faults, lg⟩ := s
  simp only [ProcessSchedules, FindCollectionByNameOrId, FindRecordsByFilter,
    Store.nextFault, schedulesCollection]
  rcases faults with _ | ⟨_ | e1, _ | ⟨_ | e2, rest⟩⟩ <;> simp <;>
    (split <;> rename_i h <;>
      (have hr := congrArg (fun p => p.2.kiosk_tasks) h
       simp only [rangeRecords_kiosk_tasks, Store.logPrintf] at hr
       exact hr.symm))

/-- When `processSchedule` returns, with or without an error, the loop goes on with the
remaining records; an error adds a log line and nothing else. -/
theorem rangeRecords_cons_of_returned (env : Env) (record : Record) (rest : List Record)
    (s s1 : Store) (err : Option String)
    (h : processSchedule env record s = (Outcome.returned err, s1)) :
    rangeRecords env (record :: rest) s =
      rangeRecords env rest
        (match err with
          | some e => s1.logPrintf ("Error processing schedule " ++ record.Id ++ ": " ++ e)
          | none => s1) := by
  cases err <;> simp [rangeRecords, h]

/-- When `processSchedule` panics, the loop is left at once: the remaining records are
not processed. -/
theorem rangeRecords_cons_of_panicked (env : Env) (record : Record) (rest : List Record)
    (s s1 : Store) (value : String)
    (h : processSchedule env record s = (Outcome.panicked value, s1)) :
    rangeRecords env (record :: rest) s = (some value, s1) := by
  simp [rangeRecords, h]

/-- For a due schedule, when the duplicate-check query fails, `processSchedule` returns
an error and leaves both collections as they were; no data-layer call follows the
failing one, so `lastGenerated` is not advanced. -/
theorem processSchedule_query_failure (env : Env) (record : Record) (s : Store)
    (e : String) (rest : List (Option String))
    (hdue : (shouldGenerateTask env.now (parseSchedule env record)).1 = true)
    (hfail : s.faults = none :: some e :: rest) :
    (∃ err, (processSchedule env record s).1 = Outcome.returned (some err)) ∧
    (processSchedule env record s).2.schedules = s.schedules ∧
    (processSchedule env record s).2.kiosk_tasks = s.kiosk_tasks ∧
    (processSchedule env record s).2.faults = rest := by
  have hf := parseScheduleLog_faults env record s
  have hs := parseScheduleLog_schedules env record s
  have ht := parseScheduleLog_kiosk_tasks env record s
  unfold processSchedule
  dsimp only
  rw [shouldGenerateTask_eq_of_fst _ _ _ hdue]
  generalize parseScheduleLog env record s = s0 at hf hs ht ⊢
  obtain ⟨sch, tasks, faults, lg⟩ := s0
  simp only at hf hs ht
  subst hs ht
  rw [hfail] at hf
  subst hf
  simp [generateTask, FindCollectionByNameOrId, FindRecordsByFilter, Store.nextFault]

/-- C2: if every (schedule, child) pair has at most one task with `completed = false`
before `ProcessSchedules`, it has at most one after it, for every list of schedules,
every clock reading and every fault script, and whether the sweep returns or is left by a
panic.  The sweep never writes to the task collection (`ProcessSchedules_kiosk_tasks`). -/
theorem ProcessSchedules_preserves_atMostOneIncomplete (env : Env) (s : Store)
    (h : AtMostOneIncomplete s.kiosk_tasks) :
    AtMostOneIncomplete (ProcessSchedules env s).2.kiosk_tasks := by
  rw [ProcessSchedules_kiosk_tasks]
  exact h

/-! ## The scenarios evaluated -/

/-- C4, the code at the failing input: `now` is 2024-01-02T01:00:00+02:00 and
`lastGenerated` is the earlier instant 2024-01-01T22:30:00Z carried in UTC, which in the
zone of `now` is 00:30 on the same day 2024-01-02.  `shouldGenerateTask` returns true.
With the same instant carried in the zone of `now` it returns false. -/
theorem shouldGenerateTask_same_day_other_zone_due :
    (halfPastMidnightEastInUTC.In tuesdayNightEast.Location).Year = tuesdayNightEast.Year ∧
    (halfPastMidnightEastInUTC.In tuesdayNightEast.Location).Month = tuesdayNightEast.Month ∧
    (halfPastMidnightEastInUTC.In tuesdayNightEast.Location).Day = tuesdayNightEast.Day ∧
    halfPastMidnightEastInUTC.unix < tuesdayNightEast.unix ∧
    shouldGenerateTask tuesdayNightEast (dailySchedule halfPastMidnightEastInUTC) = (true, none) ∧
    shouldGenerateTask tuesdayNightEast
      (dailySchedule (halfPastMidnightEastInUTC.In tuesdayNightEast.Location)) = (false, none) := by
  decide

/-- C5 at 2024-01-02T08:00:00Z with `lastGenerated` = 2024-01-01T09:00:00+01:00. -/
theorem shouldGenerateTask_daily_due_after_earlier_day_witness :
    shouldGenerateTask tuesdayMorningUTC (dailySchedule { unix := 1704096000, offset := 3600 })
      = (true, none) :=
  shouldGenerateTask_daily_due_after_earlier_day tuesdayMorningUTC
    (dailySchedule { unix := 1704096000, offset := 3600 }) rfl (by decide)

/-- C6 at 2024-01-02T08:00:00Z. -/
theorem shouldGenerateTask_daily_never_generated_witness :
    shouldGenerateTask tuesdayMorningUTC (dailySchedule zeroTime) = (true, none) :=
  (shouldGenerateTask_daily_never_generated tuesdayMorningUTC (dailySchedule zeroTime)
    rfl rfl (by decide)).1

/-- C7 on Tuesday 2024-01-02 for the schedule of Monday, Wednesday and Friday. -/
theorem shouldGenerateTask_weekly_iff_witness :
    tuesdayMorningUTC.Weekday = 2 ∧
    shouldGenerateTask tuesdayMorningUTC weeklySchedule = (false, none) :=
  ⟨by decide,
    (shouldGenerateTask_weekly_iff tuesdayMorningUTC weeklySchedule rfl).2.1 rfl (by decide)⟩

/-- C1, the code at the failing input: `teethRecord` is due at 2024-01-02T08:00:00Z and
the store holds two incomplete tasks for its schedule and child.  The duplicate check
finds one of them, no task is created, and `processSchedule` goes on to
`updateLastGenerated`: it returns `nil`, the stored `lastGenerated` moves from
2024-01-01T08:00:00Z to the clock reading, and the log says a task was generated. -/
theorem processSchedule_skipped_duplicate_stamps_lastGenerated :
    (shouldGenerateTask envUTC.now (parseSchedule envUTC teethRecord)).1 = true ∧
    storeTwoPending.kiosk_tasks.filter (incompleteFilter teethRecord.Id teethRecord.child)
      = [teethTaskDayBefore, teethTaskYesterday] ∧
    teethRecord.lastGenerated = 1704096000 ∧
    (processSchedule envUTC teethRecord storeTwoPending).1 = Outcome.returned none ∧
    (processSchedule envUTC teethRecord storeTwoPending).2.kiosk_tasks =
      storeTwoPending.kiosk_tasks ∧
    (processSchedule envUTC teethRecord storeTwoPending).2.schedules =
      [{ teethRecord with lastGenerated := 1704182400 }] ∧
    (processSchedule envUTC teethRecord storeTwoPending).2.log =
      ["Skipping task generation for schedule s1 - incomplete task already exists",
       "Generated task for schedule s1 (Brush teeth)"] := by
  decide

/-- C2 on the store with one incomplete task, swept at 2024-01-02T08:00:00Z. -/
theorem ProcessSchedules_preserves_atMostOneIncomplete_witness :
    AtMostOneIncomplete storeOnePending.kiosk_tasks ∧
    AtMostOneIncomplete (ProcessSchedules envUTC storeOnePending).2.kiosk_tasks :=
  have h : AtMostOneIncomplete storeOnePending.kiosk_tasks := fun _ _ =>
    le_trans (List.length_filter_le _ _) (by decide)
  ⟨h, ProcessSchedules_preserves_atMostOneIncomplete envUTC storeOnePending h⟩

/-- C3, the code at the failing input: one active daily schedule that is due, no task,
no fault.  The first sweep reaches the creation step and panics there; no task exists
after it.  The second sweep at the same clock reading does the same.  Two sweeps create
no task, not one. -/
theorem ProcessSchedules_twice_creates_no_task :
    storeFresh.schedules.filter activeFilter = [bedRecord] ∧
    (shouldGenerateTask envUTC.now (parseSchedule envUTC bedRecord)).1 = true ∧
    storeFresh.kiosk_tasks = [] ∧
    storeFresh.faults = [] ∧
    (ProcessSchedules envUTC storeFresh).1 = Outcome.panicked nilCollectionPanic ∧
    (ProcessSchedules envUTC storeFresh).2.kiosk_tasks = [] ∧
    (ProcessSchedules envUTC (ProcessSchedules envUTC storeFresh).2).1 =
      Outcome.panicked nilCollectionPanic ∧
    (ProcessSchedules envUTC (ProcessSchedules envUTC storeFresh).2).2.kiosk_tasks = [] := by
  decide

/-- C8, the code at the failing input: `teethRecord` is due and has no incomplete task.
The schedule value built from the record carries its id, title, child and priority, but
`processSchedule` panics in the creation step and the task collection stays empty: there
is no created task to carry them. -/
theorem processSchedule_due_schedule_creates_no_task :
    (shouldGenerateTask envUTC.now (parseSchedule envUTC teethRecord)).1 = true ∧
    (parseSchedule envUTC teethRecord).ID = "s1" ∧
    (parseSchedule envUTC teethRecord).Title = "Brush teeth" ∧
    (parseSchedule envUTC teethRecord).Child = "c1" ∧
    (parseSchedule envUTC teethRecord).Priority = some 2 ∧
    storeNoTask.kiosk_tasks = [] ∧
    (processSchedule envUTC teethRecord storeNoTask).1 = Outcome.panicked nilCollectionPanic ∧
    (processSchedule envUTC teethRecord storeNoTask).2.kiosk_tasks = [] := by
  decide

/-- C9, the code at the failing input: two active schedules are listed, `bedRecord`
first.  Processing `bedRecord` panics in the creation step, the panic leaves
`ProcessSchedules`, which returns nothing, and `teethRecord` is not processed: its stored
row is unchanged, while `processSchedule` on it in the same store returns `nil` and
stamps it. -/
theorem ProcessSchedules_panic_skips_remaining_schedules :
    storeTwoSchedules.schedules.filter activeFilter = [bedRecord, teethRecord] ∧
    (ProcessSchedules envUTC storeTwoSchedules).1 = Outcome.panicked nilCollectionPanic ∧
    (ProcessSchedules envUTC storeTwoSchedules).2.schedules = [bedRecord, teethRecord] ∧
    (processSchedule envUTC teethRecord storeTwoSchedules).1 = Outcome.returned none ∧
    (processSchedule envUTC teethRecord storeTwoSchedules).2.schedules =
      [bedRecord, { teethRecord with lastGenerated := 1704182400 }] := by
  decide

/-- C10, the code at the failing input: `bedRecord` is due, the duplicate-check query
succeeds and returns no row, and the creation of the task fails.  It fails by a panic
before `form.Submit`: `processSchedule` returns no error (it does not return), while
`lastGenerated` and the task collection are left as they were. -/
theorem processSchedule_creation_failure_returns_no_error :
    (shouldGenerateTask envUTC.now (parseSchedule envUTC bedRecord)).1 = true ∧
    (processSchedule envUTC bedRecord storeFresh).1 = Outcome.panicked nilCollectionPanic ∧
    (¬ ∃ err, (processSchedule envUTC bedRecord storeFresh).1 = Outcome.returned err) ∧
    (processSchedule envUTC bedRecord storeFresh).2.schedules = [bedRecord] ∧
    (processSchedule envUTC bedRecord storeFresh).2.kiosk_tasks = [] := by
  have hp : (processSchedule envUTC bedRecord storeFresh).1 =
      Outcome.panicked nilCollectionPanic := by decide
  refine ⟨by decide, hp, ?_, by decide, by decide⟩
  rintro ⟨err, h⟩
  rw [hp] at h
  cases h

/-- The duplicate check misses a single incomplete task. -/
theorem generateTask_single_pending_task_not_found :
    storeOnePending.kiosk_tasks.filter
      (incompleteFilter (parseSchedule envUTC teethRecord).ID
        (parseSchedule envUTC teethRecord).Child) = [teethTaskYesterday] ∧
    generateTask (parseSchedule envUTC teethRecord) storeOnePending =
      (Outcome.panicked nilCollectionPanic, storeOnePending) := by
  decide

/-- The query failure lemma at work. -/
theorem processSchedule_query_failure_example :
    (∃ err, (processSchedule envUTC teethRecord storeQueryFails).1 =
      Outcome.returned (some err)) ∧
    (processSchedule envUTC teethRecord storeQueryFails).2.schedules = [teethRecord] :=
  ⟨(processSchedule_query_failure envUTC teethRecord storeQueryFails
      "database is locked" [] (by decide) rfl).1,
   (processSchedule_query_failure envUTC teethRecord storeQueryFails
      "database is locked" [] (by decide) rfl).2.1⟩

end ScheduleManager
